import Mathlib

/-!
Shallow embedding of the Alphascape rendering bootstrap
(src/main.cpp: one white triangle; src/unnamed/part_000: two quads with a
time-animated uniform colour).  GL and GLFW calls are modelled as an event
trace plus explicit state passing; numeric GL/GLFW constants come from the
headers.  Handles are numbered in allocation order: vertexShader = 1,
fragmentShader = 2, shaderProgram = 3, VAO = 4, VBO = 5, EBO = 6.
-/

namespace Alphascape

/-- GLFW key code for the escape key (GLFW_KEY_ESCAPE in glfw3.h). -/
def GLFW_KEY_ESCAPE : Int := 256

/-- GLFW action code for a key press. -/
def GLFW_PRESS : Int := 1

/-- GLFW action code for a key release. -/
def GLFW_RELEASE : Int := 0

/-- GLFW window hint identifiers and values used by both programs. -/
def GLFW_CONTEXT_VERSION_MAJOR : Int := 139266

def GLFW_CONTEXT_VERSION_MINOR : Int := 139267

def GLFW_OPENGL_PROFILE : Int := 139272

def GLFW_OPENGL_CORE_PROFILE : Int := 204801

def GLFW_RESIZABLE : Int := 131075

/-- GL enumerants (from GL/glew.h). -/
def GL_VERTEX_SHADER : Nat := 35633

def GL_FRAGMENT_SHADER : Nat := 35632

def GL_ARRAY_BUFFER : Nat := 34962

def GL_ELEMENT_ARRAY_BUFFER : Nat := 34963

def GL_TRIANGLES : Nat := 4

def GL_UNSIGNED_INT : Nat := 5125

/-- Every GL/GLFW call the two programs issue, as a trace event.  Payloads
record the arguments that matter to the claims. -/
inductive Ev where
  | glfwInitEv
  | windowHint (hint value : Int)
  | createWindow (width height : Int) (title : String)
  | makeContextCurrent
  | setKeyCallback
  | setWindowSizeCallback
  | glewInitEv
  | viewport (x y width height : Int)
  | getFramebufferSize (width height : Int)
  | createShader (stage handle : Nat)
  | shaderSource (handle : Nat)
  | compileShader (handle : Nat)
  | getShaderiv (handle : Nat) (ok : Bool)
  | getShaderInfoLog (handle : Nat) (log : String)
  | printLog (msg : String)
  | createProgram (handle : Nat)
  | attachShader (program shader : Nat)
  | linkProgram (program : Nat)
  | getProgramiv (program : Nat) (ok : Bool)
  | getProgramInfoLog (program : Nat) (log : String)
  | deleteShader (handle : Nat)
  | genVertexArrays (handle : Nat)
  | genBuffers (handle : Nat)
  | bindVertexArray (handle : Nat)
  | bindBuffer (target handle : Nat)
  | bufferData (target size : Nat)
  | vertexAttribPointer (index size : Nat)
  | enableVertexAttribArray (index : Nat)
  | pollEvents
  | getTime (t : ℝ)
  | getUniformLocation (program : Nat) (name : String)
  | useProgram (program : Nat)
  | uniform4f (x y z w : ℝ)
  | clearColor (r g b a : ℝ)
  | clear
  | drawElements (mode count ty : Nat)
  | swapBuffers
  | deleteVertexArrays (handle : Nat)
  | deleteBuffers (handle : Nat)
  | terminate

/-- Program-global state: the GLFW window's should-close flag together with
the globals of part_000 (WIDTH, HEIGHT, lastFrameTime) and the current
viewport rectangle set by glViewport. -/
structure ProgState where
  shouldClose : Bool
  WIDTH : Int
  HEIGHT : Int
  lastFrameTime : ℝ
  viewport : Int × Int × Int × Int

/-- key_callback (part_000 lines 45-50, main.cpp lines 43-48): an escape
press requests window close via glfwSetWindowShouldClose; every other
(key, action) pair does nothing. -/
def key_callback (key _scancode action _mode : Int) (s : ProgState) : ProgState :=
  if key = GLFW_KEY_ESCAPE ∧ action = GLFW_PRESS then
    { s with shouldClose := true }
  else
    s

/-- window_size_callback (part_000 lines 53-58): store the new size in the
globals, query the framebuffer size (fbw, fbh, supplied by the windowing
layer) and set the viewport to (0, 0, fbw, fbh). -/
def window_size_callback (fbw fbh width height : Int) (s : ProgState) : ProgState :=
  { s with WIDTH := width, HEIGHT := height, viewport := (0, 0, fbw, fbh) }

/-- The GL/GLFW calls issued by one invocation of window_size_callback. -/
def resizeEvents (fbw fbh : Int) : List Ev :=
  [.getFramebufferSize fbw fbh, .viewport 0 0 fbw fbh]

/-- Handle numbers, in allocation order of part_000's main. -/
def vertexShader : Nat := 1

def fragmentShader : Nat := 2

def shaderProgram : Nat := 3

def VAO : Nat := 4

def VBO : Nat := 5

def EBO : Nat := 6

/-- Initialisation events of part_000's main (lines 67-91). -/
def initEvents : List Ev :=
  [.glfwInitEv,
   .windowHint GLFW_CONTEXT_VERSION_MAJOR 3,
   .windowHint GLFW_CONTEXT_VERSION_MINOR 3,
   .windowHint GLFW_OPENGL_PROFILE GLFW_OPENGL_CORE_PROFILE,
   .windowHint GLFW_RESIZABLE 1,
   .createWindow 512 512 "Alphascape",
   .makeContextCurrent,
   .setKeyCallback,
   .setWindowSizeCallback,
   .glewInitEv,
   .viewport 0 0 512 512]

/-- The uniform name queried every frame (part_000 line 201). -/
def ourColor : String := "ourColor"

/-- An empty driver log, used to instantiate the trace at concrete inputs. -/
def emptyLog : String := ""

def vertexTag : String := "ERROR::SHADER::VERTEX::COMPILATION_FAILED\n"

def fragmentTag : String := "ERROR::SHADER::FRAGMENT::COMPILATION_FAILED\n"

def linkTag : String := "ERROR::SHADER::PROGRAM::LINKING_FAILED\n"

/-- One shader-stage compilation block (part_000 lines 99-122): create the
shader, submit the source, compile, query GL_COMPILE_STATUS (value `ok`,
supplied by the driver); on failure fetch the info log into a 512-byte
buffer and print it behind the stage's error banner.  No early return in
either case. -/
def compileStageEvents (stage handle : Nat) (ok : Bool) (log tag : String) : List Ev :=
  [.createShader stage handle, .shaderSource handle, .compileShader handle,
   .getShaderiv handle ok] ++
    (if ok then [] else
      [.getShaderInfoLog handle (log.take 512), .printLog (tag ++ log.take 512)])

/-- The whole shader-building region of part_000's main (lines 99-139):
compile both stages, then unconditionally create the program, attach both
shaders, link, query GL_LINK_STATUS (printing the log on failure), and
delete the two shader objects. -/
def buildEvents (vOK : Bool) (vLog : String) (fOK : Bool) (fLog : String)
    (lOK : Bool) (lLog : String) : List Ev :=
  compileStageEvents GL_VERTEX_SHADER vertexShader vOK vLog vertexTag ++
  compileStageEvents GL_FRAGMENT_SHADER fragmentShader fOK fLog fragmentTag ++
  [.createProgram shaderProgram,
   .attachShader shaderProgram vertexShader,
   .attachShader shaderProgram fragmentShader,
   .linkProgram shaderProgram,
   .getProgramiv shaderProgram lOK] ++
  (if lOK then [] else
    [.getProgramInfoLog shaderProgram (lLog.take 512), .printLog (linkTag ++ lLog.take 512)]) ++
  [.deleteShader vertexShader, .deleteShader fragmentShader]

/-- The vertex array of part_000 (lines 146-156): 8 vertices of 3 floats. -/
def vertices : List ℚ :=
  [0.2, 0.2, 0, 0.2, -0.8, 0, -0.8, -0.8, 0, -0.8, 0.2, 0,
   0.8, 0.8, 0, 0.8, -0.2, 0, -0.2, -0.2, 0, -0.2, 0.8, 0]

/-- The index array of part_000 (lines 157-162): 12 indices, 4 triangles. -/
def indices : List Nat := [0, 1, 3, 1, 2, 3, 4, 5, 7, 5, 6, 7]

def sizeofGLfloat : Nat := 4

def sizeofGLuint : Nat := 4

/-- sizeof(vertices): the byte size of the vertex array. -/
def sizeofVertices : Nat := vertices.length * sizeofGLfloat

/-- sizeof(indices): the byte size of the index array.  This is the value
part_000 line 212 passes to glDrawElements as its count argument. -/
def sizeofIndices : Nat := indices.length * sizeofGLuint

/-- The triangle vertex data of src/main.cpp (lines 143-147, 3 vertices). -/
def verticesTriangle : List ℚ := [-0.5, -0.5, 0, 0.5, -0.5, 0, 0, 0.5, 0]

/-- The count literal src/main.cpp line 182 passes to glDrawArrays. -/
def drawArraysCount : Nat := 3

/-- Geometry setup of part_000's main (lines 163-183): gen VAO/VBO/EBO, bind
the VAO, upload vertex and index data, declare and enable the attribute,
unbind the array buffer, rebind the EBO, and unbind the VAO. -/
def geometryEvents : List Ev :=
  [.genVertexArrays VAO, .genBuffers VBO, .genBuffers EBO,
   .bindVertexArray VAO,
   .bindBuffer GL_ARRAY_BUFFER VBO, .bufferData GL_ARRAY_BUFFER sizeofVertices,
   .bindBuffer GL_ELEMENT_ARRAY_BUFFER EBO, .bufferData GL_ELEMENT_ARRAY_BUFFER sizeofIndices,
   .vertexAttribPointer 0 3, .enableVertexAttribArray 0,
   .bindBuffer GL_ARRAY_BUFFER 0,
   .bindBuffer GL_ELEMENT_ARRAY_BUFFER EBO,
   .bindVertexArray 0]

/-- greenValue (part_000 line 200): sin(timeValue) / 2.0f + 0.5f. -/
noncomputable def greenValue (timeValue : ℝ) : ℝ := Real.sin timeValue / 2 + 0.5

/-- The GL/GLFW calls of one iteration of part_000's main loop (lines
191-216), at elapsed time `timeValue`: poll, read the clock, resolve the
"ourColor" uniform location, activate the program, push the animated
colour, set the clear colour and clear, activate the program again, bind
the VAO, draw, unbind the VAO, swap. -/
noncomputable def frameEvents (timeValue : ℝ) : List Ev :=
  [.pollEvents,
   .getTime timeValue,
   .getUniformLocation shaderProgram ourColor,
   .useProgram shaderProgram,
   .uniform4f (greenValue timeValue) (greenValue timeValue) (greenValue timeValue) 1,
   .clearColor 0.529 0.808 0.980 1,
   .clear,
   .useProgram shaderProgram,
   .bindVertexArray VAO,
   .drawElements GL_TRIANGLES sizeofIndices GL_UNSIGNED_INT,
   .bindVertexArray 0,
   .swapBuffers]

/-- An input delivered by glfwPollEvents: a key event or a resize event
(the latter carrying the framebuffer size the surface reports). -/
inductive InputEvent where
  | key (key action : Int)
  | resize (width height fbw fbh : Int)

/-- Whether an input event is an escape-key press. -/
def isEscPress : InputEvent → Bool
  | .key k a => k == GLFW_KEY_ESCAPE && a == GLFW_PRESS
  | _ => false

/-- glfwPollEvents dispatches each pending event to the registered
callback. -/
def dispatchEvent (s : ProgState) : InputEvent → ProgState
  | .key k a => key_callback k 0 a 0 s
  | .resize w h fw fh => window_size_callback fw fh w h s

def pollState (s : ProgState) (evs : List InputEvent) : ProgState :=
  evs.foldl dispatchEvent s

/-- One loop iteration's worth of external input: the events delivered
during glfwPollEvents and the value glfwGetTime returns. -/
structure IterInput where
  events : List InputEvent
  time : ℝ

/-- State effect of one loop iteration: poll (dispatching callbacks), then
update lastFrameTime (part_000 lines 196-198). -/
def stepState (s : ProgState) (i : IterInput) : ProgState :=
  { pollState s i.events with lastFrameTime := i.time }

/-- One full loop iteration: its state effect and its GL/GLFW trace. -/
noncomputable def loopIter (s : ProgState) (i : IterInput) : ProgState × List Ev :=
  (stepState s i, frameEvents i.time)

/-- The main loop (part_000 lines 191-216): while the window should stay
open, run one iteration.  The supplied list is the per-iteration external
input; the loop stops early as soon as shouldClose is observed at the top
of an iteration. -/
noncomputable def runLoop : ProgState → List IterInput → ProgState × List Ev
  | s, [] => (s, [])
  | s, i :: rest =>
      if s.shouldClose then (s, [])
      else
        let p := loopIter s i
        let q := runLoop p.1 rest
        (q.1, p.2 ++ q.2)

/-- Number of iterations the loop actually executes on the given input. -/
def itersRun : ProgState → List IterInput → Nat
  | _, [] => 0
  | s, i :: rest => if s.shouldClose then 0 else itersRun (stepState s i) rest + 1

/-- Cleanup events of part_000's main (lines 219-226): delete the VAO,
delete the VBO, terminate GLFW.  Neither the shader program nor the EBO is
deleted here. -/
def cleanupEvents : List Ev := [.deleteVertexArrays VAO, .deleteBuffers VBO, .terminate]

/-- Initial global state at entry to the main loop. -/
def initState : ProgState :=
  { shouldClose := false, WIDTH := 512, HEIGHT := 512, lastFrameTime := 0,
    viewport := (0, 0, 512, 512) }

/-- The complete GL/GLFW trace of part_000's main: initialisation, shader
build (with driver-reported compile/link statuses and logs), geometry
setup, the main loop, cleanup. -/
noncomputable def mainEvents (vOK : Bool) (vLog : String) (fOK : Bool) (fLog : String)
    (lOK : Bool) (lLog : String) (inputs : List IterInput) : List Ev :=
  initEvents ++ buildEvents vOK vLog fOK fLog lOK lLog ++ geometryEvents ++
    (runLoop initState inputs).2 ++ cleanupEvents

/-! Observation machinery over traces. -/

def isPoll : Ev → Bool
  | .pollEvents => true
  | _ => false

def isSwap : Ev → Bool
  | .swapBuffers => true
  | _ => false

def isTerm : Ev → Bool
  | .terminate => true
  | _ => false

def isDeleteVAO : Ev → Bool
  | .deleteVertexArrays _ => true
  | _ => false

def isDeleteBuf : Ev → Bool
  | .deleteBuffers _ => true
  | _ => false

def isGetLoc : Ev → Bool
  | .getUniformLocation _ _ => true
  | _ => false

def isCreateProgramEv : Ev → Bool
  | .createProgram _ => true
  | _ => false

def isLinkEv : Ev → Bool
  | .linkProgram _ => true
  | _ => false

def isCompileEv : Ev → Bool
  | .compileShader _ => true
  | _ => false

/-- Whether an event fetches the info log of shader `h`. -/
def isInfoLogFor (h : Nat) : Ev → Bool
  | .getShaderInfoLog h2 _ => h2 == h
  | _ => false

/-- Whether an event allocates a GPU object handle. -/
def isAlloc : Ev → Bool
  | .createShader _ _ => true
  | .createProgram _ => true
  | .genVertexArrays _ => true
  | .genBuffers _ => true
  | _ => false

/-- Whether an event destroys a GPU object handle. -/
def isRelease : Ev → Bool
  | .deleteShader _ => true
  | .deleteVertexArrays _ => true
  | .deleteBuffers _ => true
  | _ => false

/-- The context's current binding state: the bound vertex array, the bound
GL_ARRAY_BUFFER and the bound GL_ELEMENT_ARRAY_BUFFER (0 = unbound). -/
structure BindState where
  vao : Nat
  arrayBuffer : Nat
  elementBuffer : Nat
deriving DecidableEq

/-- Effect of one GL call on the binding state. -/
def stepBind (b : BindState) : Ev → BindState
  | .bindVertexArray h => { b with vao := h }
  | .bindBuffer t h =>
      if t = GL_ARRAY_BUFFER then { b with arrayBuffer := h }
      else if t = GL_ELEMENT_ARRAY_BUFFER then { b with elementBuffer := h }
      else b
  | _ => b

def applyBinds (b : BindState) (es : List Ev) : BindState := es.foldl stepBind b

/-- Live GPU handles after a trace: allocation pushes the handle, deletion
removes it. -/
def stepLive (live : List Nat) : Ev → List Nat
  | .createShader _ h => h :: live
  | .createProgram h => h :: live
  | .genVertexArrays h => h :: live
  | .genBuffers h => h :: live
  | .deleteShader h => live.erase h
  | .deleteVertexArrays h => live.erase h
  | .deleteBuffers h => live.erase h
  | _ => live

def liveAfter (es : List Ev) : List Nat := es.foldl stepLive []

/-- The first component pushed by a glUniform4f event, if any. -/
def uniformArg : Ev → Option ℝ
  | .uniform4f x _ _ _ => some x
  | _ => none

/-- Whether an event prints to standard output. -/
def isPrintEv : Ev → Bool
  | .printLog _ => true
  | _ => false

/-- Whether an event deletes the specific buffer handle h. -/
def isDeleteBufH (h : Nat) : Ev → Bool
  | .deleteBuffers h2 => h2 == h
  | _ => false

/-- Whether an event deletes the specific vertex-array handle h. -/
def isDeleteVAOH (h : Nat) : Ev → Bool
  | .deleteVertexArrays h2 => h2 == h
  | _ => false

/-- A nonempty driver diagnostic for a malformed vertex shader (e.g. a
missing semicolon), used to instantiate the compile-failure trace. -/
def malformedLog : String := "0:3(1): error: syntax error, unexpected NEW_IDENTIFIER"

/-- A run whose single iteration delivers an escape-key press. -/
def escInput : List IterInput := [⟨[InputEvent.key GLFW_KEY_ESCAPE GLFW_PRESS], 0⟩]

/-- A run of two whole frames with no input, at elapsed times 0 and 1. -/
def twoFrames : List IterInput := [⟨[], 0⟩, ⟨[], 1⟩]

/-! Helper lemmas shared by the claim theorems. -/

lemma applyBinds_append (b : BindState) (xs ys : List Ev) :
    applyBinds b (xs ++ ys) = applyBinds (applyBinds b xs) ys :=
  List.foldl_append stepBind b xs ys

lemma applyBinds_frame (t : ℝ) : applyBinds ⟨0, 0, EBO⟩ (frameEvents t) = ⟨0, 0, EBO⟩ := rfl

lemma applyBinds_runLoop (s : ProgState) (inputs : List IterInput) :
    applyBinds ⟨0, 0, EBO⟩ (runLoop s inputs).2 = ⟨0, 0, EBO⟩ := by
  induction inputs generalizing s with
  | nil => rfl
  | cons i rest ih =>
      by_cases h : s.shouldClose = true
      · simp [runLoop, h]
        rfl
      · simp [runLoop, h, loopIter, applyBinds_append, applyBinds_frame, ih]

lemma dispatch_shouldClose (s : ProgState) (e : InputEvent) :
    (dispatchEvent s e).shouldClose = (s.shouldClose || isEscPress e) := by
  cases e with
  | key k a =>
      by_cases h : k = GLFW_KEY_ESCAPE ∧ a = GLFW_PRESS
      · have hd : isEscPress (InputEvent.key k a) = true := by
          simp [isEscPress, h.1, h.2]
        simp [dispatchEvent, key_callback, if_pos h, hd]
      · have hd : isEscPress (InputEvent.key k a) = false := by
          rcases not_and_or.mp h with h1 | h1 <;> simp [isEscPress, h1]
        simp [dispatchEvent, key_callback, if_neg h, hd]
  | resize w h fw fh => simp [dispatchEvent, window_size_callback, isEscPress]

lemma pollState_shouldClose (s : ProgState) (evs : List InputEvent) :
    (pollState s evs).shouldClose = (s.shouldClose || evs.any isEscPress) := by
  induction evs generalizing s with
  | nil => simp [pollState]
  | cons e rest ih =>
      rw [show pollState s (e :: rest) = pollState (dispatchEvent s e) rest from rfl, ih,
        dispatch_shouldClose]
      simp [Bool.or_assoc]

lemma itersRun_or_close (s : ProgState) (inputs : List IterInput) :
    itersRun s inputs = inputs.length ∨ (runLoop s inputs).1.shouldClose = true := by
  induction inputs generalizing s with
  | nil => exact Or.inl rfl
  | cons i rest ih =>
      by_cases h : s.shouldClose = true
      · right
        simp [runLoop, h]
      · rcases ih (stepState s i) with h1 | h1
        · left
          simp [itersRun, h, h1]
        · right
          simpa [runLoop, h, loopIter] using h1

lemma runLoop_countP (p : Ev → Bool) (c : Nat) (hp : ∀ t, (frameEvents t).countP p = c)
    (s : ProgState) (inputs : List IterInput) :
    ((runLoop s inputs).2).countP p = c * itersRun s inputs := by
  induction inputs generalizing s with
  | nil => simp [runLoop, itersRun]
  | cons i rest ih =>
      by_cases h : s.shouldClose = true
      · simp [runLoop, itersRun, h]
      · simp [runLoop, itersRun, h, loopIter, List.countP_append, hp, ih]
        ring

lemma runLoop_countP_zero (p : Ev → Bool) (hp : ∀ t, (frameEvents t).countP p = 0)
    (s : ProgState) (inputs : List IterInput) : ((runLoop s inputs).2).countP p = 0 := by
  simpa using runLoop_countP p 0 hp s inputs

lemma build_countP_deleteVAO (vOK fOK lOK : Bool) (vLog fLog lLog : String) :
    (buildEvents vOK vLog fOK fLog lOK lLog).countP isDeleteVAO = 0 := by
  cases vOK <;> cases fOK <;> cases lOK <;> rfl

lemma build_countP_deleteBuf (vOK fOK lOK : Bool) (vLog fLog lLog : String) :
    (buildEvents vOK vLog fOK fLog lOK lLog).countP isDeleteBuf = 0 := by
  cases vOK <;> cases fOK <;> cases lOK <;> rfl

lemma build_countP_term (vOK fOK lOK : Bool) (vLog fLog lLog : String) :
    (buildEvents vOK vLog fOK fLog lOK lLog).countP isTerm = 0 := by
  cases vOK <;> cases fOK <;> cases lOK <;> rfl

lemma build_countP_deleteVAOH (h : Nat) (vOK fOK lOK : Bool) (vLog fLog lLog : String) :
    (buildEvents vOK vLog fOK fLog lOK lLog).countP (isDeleteVAOH h) = 0 := by
  cases vOK <;> cases fOK <;> cases lOK <;> rfl

lemma build_countP_deleteBufH (h : Nat) (vOK fOK lOK : Bool) (vLog fLog lLog : String) :
    (buildEvents vOK vLog fOK fLog lOK lLog).countP (isDeleteBufH h) = 0 := by
  cases vOK <;> cases fOK <;> cases lOK <;> rfl

lemma mainEvents_getLast (vOK fOK lOK : Bool) (vLog fLog lLog : String)
    (inputs : List IterInput) :
    (mainEvents vOK vLog fOK fLog lOK lLog inputs).getLast? = some Ev.terminate := by
  have h : mainEvents vOK vLog fOK fLog lOK lLog inputs =
      (initEvents ++ buildEvents vOK vLog fOK fLog lOK lLog ++ geometryEvents ++
        (runLoop initState inputs).2 ++ [Ev.deleteVertexArrays VAO, Ev.deleteBuffers VBO]) ++
        [Ev.terminate] := by
    simp [mainEvents, cleanupEvents]
  rw [h]
  exact List.getLast?_concat _

/-! The claim theorems. -/

/-- Claim C1, counterexample: with the vertex stage's compile status
reported as failure, the build region of main nonetheless creates a
program object and performs the link — the claim's "no program object is
created and no link is performed" is false on the code. -/
theorem C1_counterexample :
    (buildEvents false malformedLog true emptyLog true emptyLog).countP isLinkEv = 1 ∧
    (buildEvents false malformedLog true emptyLog true emptyLog).countP isCreateProgramEv = 1 ∧
    (buildEvents false malformedLog true emptyLog true emptyLog).countP isLinkEv ≠ 0 := by
  refine ⟨rfl, rfl, ?_⟩
  intro h
  rw [show (buildEvents false malformedLog true emptyLog true emptyLog).countP isLinkEv = 1
    from rfl] at h
  exact one_ne_zero h

/-- Claim C1, amended: when a stage's compile status is failure the code
retrieves the driver's diagnostic log (into a 512-byte buffer) and prints
it labelled with the stage, but it does not fail and does not skip
linking: for every compile/link outcome it creates exactly one program
object, links exactly once, compiles each stage exactly once (no retry),
fetches a stage's info log exactly when that stage failed, and prints one
diagnostic per failed query. -/
theorem C1_compile_failure_still_links :
    ∀ (vOK fOK lOK : Bool) (vLog fLog lLog : String),
      (buildEvents vOK vLog fOK fLog lOK lLog).countP isCreateProgramEv = 1 ∧
      (buildEvents vOK vLog fOK fLog lOK lLog).countP isLinkEv = 1 ∧
      (buildEvents vOK vLog fOK fLog lOK lLog).countP isCompileEv = 2 ∧
      (buildEvents vOK vLog fOK fLog lOK lLog).countP (isInfoLogFor vertexShader) =
        (if vOK then 0 else 1) ∧
      (buildEvents vOK vLog fOK fLog lOK lLog).countP (isInfoLogFor fragmentShader) =
        (if fOK then 0 else 1) ∧
      (buildEvents vOK vLog fOK fLog lOK lLog).countP isPrintEv =
        (if vOK then 0 else 1) + (if fOK then 0 else 1) + (if lOK then 0 else 1) := by
  intro vOK fOK lOK vLog fLog lLog
  cases vOK <;> cases fOK <;> cases lOK <;> exact ⟨rfl, rfl, rfl, rfl, rfl, rfl⟩

/-- Claim C2: the non-indexed variant draws its 3 vertices with count 3,
but the indexed variant passes glDrawElements the value sizeof(indices) =
48 — the byte size of the 12-element index array — as its count argument,
not 12: every frame's draw event carries count 48. -/
theorem C2_indexed_draw_count_is_byte_size :
    drawArraysCount = 3 ∧
    verticesTriangle.length = 3 * 3 ∧
    vertices.length = 8 * 3 ∧
    indices.length = 12 ∧
    sizeofIndices = 48 ∧
    sizeofIndices ≠ indices.length ∧
    ∀ t : ℝ, Ev.drawElements GL_TRIANGLES sizeofIndices GL_UNSIGNED_INT ∈ frameEvents t := by
  refine ⟨rfl, by decide, by decide, by decide, by decide, by decide, ?_⟩
  intro t
  simp [frameEvents]

/-- Claim C3: after a complete run (one frame during which escape is
pressed, then cleanup), the index buffer (EBO = 6) and the program object
(shaderProgram = 3) are still live — the pipeline's live-handle count
after shutdown is 2, not 0. -/
theorem C3_leaked_handles :
    liveAfter (mainEvents true emptyLog true emptyLog true emptyLog escInput) =
      [EBO, shaderProgram] ∧
    (liveAfter (mainEvents true emptyLog true emptyLog true emptyLog escInput)).length = 2 ∧
    liveAfter (mainEvents true emptyLog true emptyLog true emptyLog escInput) ≠ [] := by
  refine ⟨rfl, rfl, ?_⟩
  intro h
  rw [show liveAfter (mainEvents true emptyLog true emptyLog true emptyLog escInput) =
    [EBO, shaderProgram] from rfl] at h
  exact List.cons_ne_nil _ _ h

/-- Claim C4, counterexample: a run of two frames issues the GPU location
query for "ourColor" twice, not at most once — the location is not
memoized. -/
theorem C4_counterexample :
    (runLoop initState twoFrames).2.countP isGetLoc = 2 ∧
    ¬((runLoop initState twoFrames).2.countP isGetLoc ≤ 1) := by
  have h2 : (runLoop initState twoFrames).2.countP isGetLoc = 2 := rfl
  exact ⟨h2, by omega⟩

/-- Claim C4, amended: the uniform-location query is re-issued on every
frame: across any run, the number of glGetUniformLocation calls equals
the number of iterations executed. -/
theorem C4_location_query_every_frame :
    ∀ (s : ProgState) (inputs : List IterInput),
      ((runLoop s inputs).2).countP isGetLoc = itersRun s inputs := by
  intro s inputs
  simpa using runLoop_countP isGetLoc 1 (fun _ => rfl) s inputs

/-- Claim C5, counterexample: in a complete run (escape pressed during the
first frame, loop exits, cleanup runs) the index buffer handle EBO is
allocated by the pipeline but deleted zero times — not exactly once as the
claim's "destroys the vertex array and buffer handles exactly once each"
requires of every buffer handle. -/
theorem C5_counterexample :
    Ev.genBuffers EBO ∈ mainEvents true emptyLog true emptyLog true emptyLog escInput ∧
    (mainEvents true emptyLog true emptyLog true emptyLog escInput).countP
      (isDeleteBufH EBO) = 0 ∧
    (mainEvents true emptyLog true emptyLog true emptyLog escInput).countP
      (isDeleteBufH EBO) ≠ 1 := by
  refine ⟨?_, rfl, ?_⟩
  · simp [mainEvents, geometryEvents]
  · intro h
    rw [show (mainEvents true emptyLog true emptyLog true emptyLog escInput).countP
      (isDeleteBufH EBO) = 0 from rfl] at h
    exact zero_ne_one h

/-- Claim C5, amended: polling sets the should-close flag exactly when an
escape-press is among the delivered events (and never clears it); an
iteration's state keeps that flag; the loop either consumes all its input
or stopped because the flag was observed set; every started iteration
completes (poll count = swap count); no delete or terminate happens
inside the loop; and the whole trace deletes the vertex array handle VAO
exactly once, deletes the vertex buffer handle VBO exactly once, never
deletes the index buffer handle EBO, and terminates exactly once, in that
order, with terminate last. -/
theorem C5_close_then_cleanup_order :
    ∀ (s : ProgState) (evs : List InputEvent) (i : IterInput) (inputs : List IterInput)
      (vOK fOK lOK : Bool) (vLog fLog lLog : String),
      (pollState s evs).shouldClose = (s.shouldClose || evs.any isEscPress) ∧
      (loopIter s i).1.shouldClose = (pollState s i.events).shouldClose ∧
      (itersRun s inputs = inputs.length ∨ (runLoop s inputs).1.shouldClose = true) ∧
      ((runLoop s inputs).2).countP isPoll = ((runLoop s inputs).2).countP isSwap ∧
      ((runLoop s inputs).2).countP isDeleteVAO = 0 ∧
      ((runLoop s inputs).2).countP isDeleteBuf = 0 ∧
      ((runLoop s inputs).2).countP isTerm = 0 ∧
      mainEvents vOK vLog fOK fLog lOK lLog inputs =
        initEvents ++ buildEvents vOK vLog fOK fLog lOK lLog ++ geometryEvents ++
          (runLoop initState inputs).2 ++
          [Ev.deleteVertexArrays VAO, Ev.deleteBuffers VBO, Ev.terminate] ∧
      (mainEvents vOK vLog fOK fLog lOK lLog inputs).countP isDeleteVAO = 1 ∧
      (mainEvents vOK vLog fOK fLog lOK lLog inputs).countP isDeleteBuf = 1 ∧
      (mainEvents vOK vLog fOK fLog lOK lLog inputs).countP isTerm = 1 ∧
      (mainEvents vOK vLog fOK fLog lOK lLog inputs).countP (isDeleteVAOH VAO) = 1 ∧
      (mainEvents vOK vLog fOK fLog lOK lLog inputs).countP (isDeleteBufH VBO) = 1 ∧
      (mainEvents vOK vLog fOK fLog lOK lLog inputs).countP (isDeleteBufH EBO) = 0 ∧
      (mainEvents vOK vLog fOK fLog lOK lLog inputs).getLast? = some Ev.terminate := by
  intro s evs i inputs vOK fOK lOK vLog fLog lLog
  refine ⟨pollState_shouldClose s evs, rfl, itersRun_or_close s inputs, ?_, ?_, ?_, ?_, ?_,
    ?_, ?_, ?_, ?_, ?_, ?_, mainEvents_getLast vOK fOK lOK vLog fLog lLog inputs⟩
  · rw [runLoop_countP isPoll 1 (fun _ => rfl) s inputs,
      runLoop_countP isSwap 1 (fun _ => rfl) s inputs]
  · exact runLoop_countP_zero isDeleteVAO (fun _ => rfl) s inputs
  · exact runLoop_countP_zero isDeleteBuf (fun _ => rfl) s inputs
  · exact runLoop_countP_zero isTerm (fun _ => rfl) s inputs
  · rfl
  · simp [mainEvents, List.countP_append, build_countP_deleteVAO,
      runLoop_countP_zero isDeleteVAO (fun _ => rfl), initEvents, geometryEvents, cleanupEvents,
      isDeleteVAO]
  · simp [mainEvents, List.countP_append, build_countP_deleteBuf,
      runLoop_countP_zero isDeleteBuf (fun _ => rfl), initEvents, geometryEvents, cleanupEvents,
      isDeleteBuf]
  · simp [mainEvents, List.countP_append, build_countP_term,
      runLoop_countP_zero isTerm (fun _ => rfl), initEvents, geometryEvents, cleanupEvents,
      isTerm]
  · have h1 : initEvents.countP (isDeleteVAOH VAO) = 0 := rfl
    have h2 : geometryEvents.countP (isDeleteVAOH VAO) = 0 := rfl
    have h3 : cleanupEvents.countP (isDeleteVAOH VAO) = 1 := rfl
    simp [mainEvents, List.countP_append, build_countP_deleteVAOH,
      runLoop_countP_zero (isDeleteVAOH VAO) (fun _ => rfl), h1, h2, h3]
  · have h1 : initEvents.countP (isDeleteBufH VBO) = 0 := rfl
    have h2 : geometryEvents.countP (isDeleteBufH VBO) = 0 := rfl
    have h3 : cleanupEvents.countP (isDeleteBufH VBO) = 1 := rfl
    simp [mainEvents, List.countP_append, build_countP_deleteBufH,
      runLoop_countP_zero (isDeleteBufH VBO) (fun _ => rfl), h1, h2, h3]
  · have h1 : initEvents.countP (isDeleteBufH EBO) = 0 := rfl
    have h2 : geometryEvents.countP (isDeleteBufH EBO) = 0 := rfl
    have h3 : cleanupEvents.countP (isDeleteBufH EBO) = 0 := rfl
    simp [mainEvents, List.countP_append, build_countP_deleteBufH,
      runLoop_countP_zero (isDeleteBufH EBO) (fun _ => rfl), h1, h2, h3]

/-- Claim C6: the value an iteration pushes through glUniform4f is exactly
greenValue of that iteration's elapsed time — a pure function of the time
alone, independent of the prior state (hence of how many frames ran) —
and greenValue T = 0.5 + 0.5 * sin T, which lies in [0, 1]. -/
theorem C6_uniform_value :
    ∀ (s : ProgState) (i : IterInput),
      List.filterMap uniformArg (loopIter s i).2 = [greenValue i.time] ∧
      greenValue i.time = 0.5 + 0.5 * Real.sin i.time ∧
      0 ≤ greenValue i.time ∧ greenValue i.time ≤ 1 := by
  intro s i
  refine ⟨rfl, by unfold greenValue; ring, ?_, ?_⟩
  · have := Real.neg_one_le_sin i.time
    unfold greenValue
    linarith
  · have := Real.sin_le_one i.time
    unfold greenValue
    linarith

/-- Claim C7: starting from any binding state, the geometry setup sequence
ends with the vertex-array binding and the GL_ARRAY_BUFFER binding both
null (the element-array binding holds the EBO), every frame preserves
that state, and hence after the setup followed by any number of loop
iterations both bindings are null. -/
theorem C7_binding_discipline :
    ∀ (b : BindState) (s : ProgState) (inputs : List IterInput) (t : ℝ),
      applyBinds b geometryEvents = ⟨0, 0, EBO⟩ ∧
      applyBinds ⟨0, 0, EBO⟩ (frameEvents t) = ⟨0, 0, EBO⟩ ∧
      applyBinds b (geometryEvents ++ (runLoop s inputs).2) = ⟨0, 0, EBO⟩ ∧
      (applyBinds b (geometryEvents ++ (runLoop s inputs).2)).vao = 0 ∧
      (applyBinds b (geometryEvents ++ (runLoop s inputs).2)).arrayBuffer = 0 := by
  intro b s inputs t
  have hgeo : applyBinds b geometryEvents = ⟨0, 0, EBO⟩ := rfl
  have hrun : applyBinds b (geometryEvents ++ (runLoop s inputs).2) = ⟨0, 0, EBO⟩ := by
    rw [applyBinds_append, hgeo, applyBinds_runLoop]
  exact ⟨hgeo, applyBinds_frame t, hrun, by rw [hrun], by rw [hrun]⟩

/-- Claim C9: invoking the resize handler twice with the same width,
height and framebuffer size leaves exactly the state of one invocation,
the handler's GL calls allocate and destroy no handles even across the
two invocations, and the resulting viewport is (0, 0, fbw, fbh). -/
theorem C9_resize_idempotent :
    ∀ (fbw fbh width height : Int) (s : ProgState),
      window_size_callback fbw fbh width height
          (window_size_callback fbw fbh width height s) =
        window_size_callback fbw fbh width height s ∧
      (resizeEvents fbw fbh ++ resizeEvents fbw fbh).countP isAlloc = 0 ∧
      (resizeEvents fbw fbh ++ resizeEvents fbw fbh).countP isRelease = 0 ∧
      (window_size_callback fbw fbh width height s).viewport = (0, 0, fbw, fbh) := by
  intro fbw fbh w h s
  exact ⟨rfl, rfl, rfl, rfl⟩

/-- Claim C10: for every key-callback invocation whose key/action pair is
not an escape press, the callback returns the program state unchanged —
the should-close flag and every other modelled variable included. -/
theorem C10_key_callback_no_change :
    ∀ (key scancode action mode : Int) (s : ProgState),
      ¬(key = GLFW_KEY_ESCAPE ∧ action = GLFW_PRESS) →
      key_callback key scancode action mode s = s := by
  intro key sc a m s h
  unfold key_callback
  rw [if_neg h]

/-- Witness for C10 at a concrete input: an escape-key release changes
nothing. -/
theorem C10_key_callback_no_change_witness :
    ¬((GLFW_KEY_ESCAPE : Int) = GLFW_KEY_ESCAPE ∧ (GLFW_RELEASE : Int) = GLFW_PRESS) ∧
      key_callback GLFW_KEY_ESCAPE 0 GLFW_RELEASE 0 initState = initState :=
  ⟨by decide, C10_key_callback_no_change GLFW_KEY_ESCAPE 0 GLFW_RELEASE 0 initState (by decide)⟩

end Alphascape
